import Mathlib

/-!
Verification of the Xtracta core: a shallow embedding of the offset-recovery
engine (`calculateNodePosition` in `src/frontend/src/workers/xpath-worker.ts`),
the XPath synthesizer (`generateXPath` in the click worker and in
`ClickToXPathProvider.tsx`), the click resolver
(`src/frontend/src/workers/click-to-xpath-worker.ts`), the evaluation
orchestrators, and the size-based routing, together with proofs and
refutations of the specification's claims about them.

Strings are modelled as `List Char`; JavaScript numbers that hold offsets are
modelled as `Int` with `-1` as the "not found" sentinel, exactly as the source
uses them.  JavaScript regular expressions are modelled by executable Lean
functions implementing the same matching discipline (leftmost match, the
character class `[^>]` never crossing a `>`), documented at each definition.
-/

namespace Xtracta

/-- JavaScript whitespace test (`\s` in the source's regexes, `trim`),
restricted to the ASCII whitespace characters. -/
def isWs (c : Char) : Bool :=
  c = ' ' || c = '\t' || c = '\n' || c = '\r' || c = '\x0b' || c = '\x0c'

/-- `String.prototype.trim`. -/
def trimChars (l : List Char) : List Char :=
  ((l.dropWhile isWs).reverse.dropWhile isWs).reverse

/-- `String.prototype.trimLeft`. -/
def trimLeftChars (l : List Char) : List Char := l.dropWhile isWs

/-- Lower-casing used for `toLowerCase()` and for the `i` regex flag. -/
def lowerChars (l : List Char) : List Char := l.map Char.toLower

/-- JS `hay.indexOf(pat, start)`: the least index `i ≥ start` where `pat`
occurs in `hay`, as an `Option` instead of the `-1` sentinel. -/
def idxOfFrom (hay pat : List Char) (start : Nat) : Option Nat :=
  (List.range (hay.length + 1)).find?
    (fun i => decide (start ≤ i) && pat.isPrefixOf (hay.drop i))

/-- JS `hay.indexOf(pat)`. -/
def idxOf (hay pat : List Char) : Option Nat := idxOfFrom hay pat 0

/-- JS `hay.includes(pat)`. -/
def includesSub (hay pat : List Char) : Bool := (idxOf hay pat).isSome

/-- JS `hay.indexOf(c, start)` for a single character. -/
def charIdxFrom (hay : List Char) (c : Char) (start : Nat) : Option Nat :=
  idxOfFrom hay [c] start

/-- JS `hay.lastIndexOf(c, f)` for a single character: the greatest index
`i ≤ f` holding `c`. -/
def lastCharIdxLe (hay : List Char) (c : Char) (f : Nat) : Option Nat :=
  ((List.range hay.length).filter
    (fun i => decide (i ≤ f) && decide (hay.get? i = some c))).getLast?

/-- JS `s.substring(a, b)` for `a ≤ b` (the source only calls it that way;
negative JS arguments are clamped to `0`, which `Nat` subtraction already
performs at the call sites). -/
def substrJS (l : List Char) (a b : Nat) : List Char := (l.take b).drop a

/-- Membership of a character run in the regex class `[a-zA-Z0-9_:-]`
(tag-name and attribute-name characters in the click worker's regexes). -/
def isNameChar (c : Char) : Bool :=
  (('a' ≤ c && c ≤ 'z') || ('A' ≤ c && c ≤ 'Z') || ('0' ≤ c && c ≤ '9')
    || c = '_' || c = ':' || c = '-')

/-- The maximal run of name characters starting a list. -/
def nameRun (l : List Char) : List Char := l.takeWhile isNameChar

/-- The node handle read by `calculateNodePosition` and `extractNodeValue`:
exactly the fields of the parser adapter's DOM node that the worker accesses.
`nodeValue`, `outerHTML` and `toStr` use `""` for the absent/JS-falsy case,
matching the `|| ''` coercions in the source.  `attrsList` is the
`node.attributes` collection, `descendantTags` the node names returned by
`node.getElementsByTagName('*')` in document order, and `parentName` is
`node.parentNode.nodeName` when the parent exists. -/
structure DomNode where
  nodeType : Nat
  nodeName : String
  nodeValue : String
  outerHTML : String
  toStr : String
  attrsList : List (String × String)
  textContent : String
  descendantTags : List String
  parentName : Option String
  target : String := ""
deriving Repr, DecidableEq

/-- `node.outerHTML || node.toString()`. -/
def outerOrToString (n : DomNode) : String :=
  if n.outerHTML = "" then n.toStr else n.outerHTML

/-- The `attributes` array built at the top of the element branch:
`name="value"` strings for every attribute whose name and value are truthy. -/
def attrStrings (n : DomNode) : List String :=
  (n.attrsList.filter (fun a => a.1 ≠ "" && a.2 ≠ "")).map
    (fun a => a.1 ++ "=\"" ++ a.2 ++ "\"")

/-- TEXT-NODE BRANCH of `calculateNodePosition` (xpath-worker.ts:289-342).
The searched key is the raw `node.nodeValue` (only the emptiness *test* is on
the trimmed text); the parent anchor is `<` + lower-cased parent node name;
`contextEnd` is `indexOf('>', parentPos) + 1` (so `0` when no `>` exists);
the global fallback takes the first occurrence of the text. -/
def anchoredTextSearch (content : String) (n : DomNode) : Option (Nat × Nat) :=
  let cs := content.data
  let text := n.nodeValue.data
  match n.parentName with
  | some pn =>
    if pn ≠ "" then
      let parentContext := '<' :: lowerChars pn.data
      match idxOf cs parentContext with
      | some parentPos =>
        let contextEnd : Nat :=
          match charIdxFrom cs '>' parentPos with
          | some g => g + 1
          | none => 0
        let searchStart := contextEnd
        match idxOf (cs.drop searchStart) text with
        | some tp => some (searchStart + tp, searchStart + tp + text.length)
        | none => none
      | none => none
    else none
  | none => none

/-- Continuation of the text-node branch: anchored result or global first
occurrence of the raw text. -/
def textPosition (content : String) (n : DomNode) : Int × Int :=
  let cs := content.data
  let text := n.nodeValue.data
  if trimChars text ≠ [] then
    match anchoredTextSearch content n with
    | some (s, e) => ((s : Int), (e : Int))
    | none =>
      match idxOf cs text with
      | some p => ((p : Int), ((p + text.length : Nat) : Int))
      | none => (-1, -1)
  else (-1, -1)

/-- One match attempt of the attribute regex
`attrName\s*=\s*["']attrValue["']` at index `i` (xpath-worker.ts:349); the
name and value are treated as literal text.  Returns the match length. -/
def matchAttrPatAt (hay : List Char) (i : Nat) (name value : List Char) :
    Option Nat :=
  if name.isPrefixOf (hay.drop i) then
    let j := i + name.length
    let j1 := j + ((hay.drop j).takeWhile isWs).length
    if hay.get? j1 = some '=' then
      let j2 := j1 + 1
      let j3 := j2 + ((hay.drop j2).takeWhile isWs).length
      match hay.get? j3 with
      | some q1 =>
        if (q1 = '"' || q1 = '\x27') && value.isPrefixOf (hay.drop (j3 + 1))
        then
          match hay.get? (j3 + 1 + value.length) with
          | some q2 =>
            if q2 = '"' || q2 = '\x27' then some (j3 + 2 + value.length - i)
            else none
          | none => none
        else none
      | none => none
    else none
  else none

/-- ATTRIBUTE-NODE BRANCH of `calculateNodePosition` (xpath-worker.ts:343-356):
leftmost match of the attribute pattern. -/
def attributePosition (content : String) (n : DomNode) : Int × Int :=
  let cs := content.data
  let hit := (List.range (cs.length + 1)).findSome?
    (fun i => (matchAttrPatAt cs i n.nodeName.data n.nodeValue.data).map
      (fun len => (i, len)))
  match hit with
  | some (i, len) => ((i : Int), ((i + len : Nat) : Int))
  | none => (-1, -1)

/-- Leftmost placement of the attribute chunks of the element search pattern
`<name[^>]*A1[^>]*A2...[^>]*>`: each chunk must start inside the `>`-free gap
after the previous position (the regex class `[^>]` cannot cross a `>`, while
a chunk itself may).  Returns the position just after the last chunk. -/
def placeChunks (hay : List Char) : List (List Char) → Nat → Option Nat
  | [], pos => some pos
  | c :: rest, pos =>
    let limit : Nat :=
      match charIdxFrom hay '>' pos with
      | some g => g
      | none => hay.length
    match (List.range (limit + 1)).find?
        (fun k => decide (pos ≤ k) && c.isPrefixOf (hay.drop k)) with
    | some k => placeChunks hay rest (k + c.length)
    | none => none

/-- One match attempt at index `i` of the element search pattern
(xpath-worker.ts:88/91), on the lower-cased text (the pattern carries the `i`
flag).  Returns the match length: the match always extends to the first `>`
after the last attribute chunk. -/
def matchTagPatternAt (lowHay : List Char) (i : Nat) (lowName : List Char)
    (lowChunks : List (List Char)) : Option Nat :=
  if ('<' :: lowName).isPrefixOf (lowHay.drop i) then
    match placeChunks lowHay lowChunks (i + 1 + lowName.length) with
    | some e =>
      match charIdxFrom lowHay '>' e with
      | some g => some (g + 1 - i)
      | none => none
    | none => none
  else none

/-- Leftmost match of `matchAt` at an index in `[cur, bound]`, with its
length. -/
def findFirstMatchFrom (matchAt : Nat → Option Nat) (bound cur : Nat) :
    Option (Nat × Nat) :=
  (List.range (bound + 1)).findSome?
    (fun i => if cur ≤ i then (matchAt i).map (fun l => (i, l)) else none)

/-- The element-branch search loop (xpath-worker.ts:101-116): repeatedly take
the leftmost match, resume just past it, and stop once 101 matches were
collected (`if (matches.length > 100) break`). -/
def collectTagMatchesAux (lowHay lowName : List Char)
    (lowChunks : List (List Char)) : Nat → Nat → Nat → List (Nat × Nat)
  | 0, _, _ => []
  | fuel + 1, cur, count =>
    match findFirstMatchFrom
        (fun i => matchTagPatternAt lowHay i lowName lowChunks)
        lowHay.length cur with
    | none => []
    | some (i, len) =>
      if 100 < count + 1 then [(i, len)]
      else (i, len) ::
        collectTagMatchesAux lowHay lowName lowChunks fuel
          (max (i + len) (i + 1)) (count + 1)

/-- All matches of the element search pattern, in order. -/
def collectTagMatches (lowHay lowName : List Char)
    (lowChunks : List (List Char)) : List (Nat × Nat) :=
  collectTagMatchesAux lowHay lowName lowChunks (lowHay.length + 2) 0 0

/-- Candidate scoring for multiple search matches (xpath-worker.ts:130-176):
+50 when the node's trimmed text (first 50 chars) occurs within 1000 chars of
the candidate, +30 scaled by the fraction of the first three descendant tag
names found within 500 chars, +20 scaled by the fraction of the serialized
attribute strings found in the `[pos-10, pos+100)` window. -/
def scoreCandidate (cs : List Char) (n : DomNode) (attrsS : List String)
    (matchPos : Nat) : ℚ :=
  let textC := (trimChars n.textContent.data).take 50
  let s1 : ℚ :=
    if textC ≠ [] &&
        includesSub (substrJS cs matchPos (matchPos + 1000)) textC
    then 50 else 0
  let s2 : ℚ :=
    if 0 < n.descendantTags.length && n.descendantTags.length < 10 then
      let childTags := (n.descendantTags.take 3).map (fun t => lowerChars t.data)
      let area := substrJS cs matchPos (matchPos + 500)
      let found := childTags.filter (fun t => includesSub area ('<' :: t))
      (found.length : ℚ) / (childTags.length : ℚ) * 30
    else 0
  let s3 : ℚ :=
    if attrsS ≠ [] then
      let window := substrJS cs (matchPos - 10) (matchPos + 100)
      let cnt := (attrsS.filter (fun a => includesSub window a.data)).length
      (cnt : ℚ) / (attrsS.length : ℚ) * 20
    else 0
  s1 + s2 + s3

/-- The best-match fold (xpath-worker.ts:127-176): first strict maximum,
starting from score `-1` and index `-1`. -/
def bestIdxAux : List ℚ → Nat → ℚ → Int → Int
  | [], _, _, best => best
  | s :: rest, i, bestScore, best =>
    if bestScore < s then bestIdxAux rest (i + 1) s (i : Int)
    else bestIdxAux rest (i + 1) bestScore best

/-- Index of the highest-scoring candidate (`-1` when the list is empty). -/
def bestIdxInt (scores : List ℚ) : Int := bestIdxAux scores 0 (-1) (-1)

/-- One match attempt at index `i` of the depth-scan opening-tag regex
`<name(?:\s+[^>]*?)?>` (xpath-worker.ts:200), case sensitive: either `>`
immediately after the name, or whitespace followed by the first later `>`. -/
def matchOpenTagAt (hay : List Char) (i : Nat) (name : List Char) :
    Option Nat :=
  if ('<' :: name).isPrefixOf (hay.drop i) then
    let j := i + 1 + name.length
    match hay.get? j with
    | some c =>
      if c = '>' then some (j + 1 - i)
      else if isWs c then
        match charIdxFrom hay '>' (j + 1) with
        | some g => some (g + 1 - i)
        | none => none
      else none
    | none => none
  else none

/-- Global collection of the matches of `matchAt` (a `/g` regex loop):
leftmost match, resume past it. -/
def collectMatchesAux (matchAt : Nat → Option Nat) (bound : Nat) :
    Nat → Nat → List (Nat × Nat)
  | 0, _ => []
  | fuel + 1, cur =>
    match findFirstMatchFrom matchAt bound cur with
    | none => []
    | some (i, len) =>
      (i, len) :: collectMatchesAux matchAt bound fuel (max (i + len) (i + 1))

/-- All matches of `matchAt` over positions `0..bound`. -/
def collectMatches (matchAt : Nat → Option Nat) (bound : Nat) :
    List (Nat × Nat) :=
  collectMatchesAux matchAt bound (bound + 2) 0

/-- Merge of the (ascending) opening and closing tag positions into the event
list sorted by position (xpath-worker.ts:227-230); `true` marks an opening
tag. -/
def mergeEvents : List Nat → List Nat → List (Nat × Bool)
  | [], cls => cls.map (fun p => (p, false))
  | o :: os, [] => (o, true) :: mergeEvents os []
  | o :: os, c :: cls =>
    if o ≤ c then (o, true) :: mergeEvents os (c :: cls)
    else (c, false) :: mergeEvents (o :: os) cls
termination_by os cls => os.length + cls.length

/-- The depth scan over the event list (xpath-worker.ts:233-251): skip the
first opening event at `startOffset`, increment on opens, decrement on closes,
return the close position that brings the depth from 1 to 0. -/
def scanDepth (startOffset : Nat) : List (Nat × Bool) → Bool → Nat → Option Nat
  | [], _, _ => none
  | (pos, isOpen) :: rest, skipFirst, depth =>
    if skipFirst && isOpen && pos = startOffset then
      scanDepth startOffset rest false depth
    else if isOpen then scanDepth startOffset rest skipFirst (depth + 1)
    else if depth = 1 then some pos
    else scanDepth startOffset rest skipFirst (depth - 1)

/-- The self-closing test (xpath-worker.ts:191): whether the regex
`<[^>]*\/>` matches anywhere in the window — `<`, then a `>`-free stretch
whose last character is `/`, then `>`. -/
def selfClosingIn (l : List Char) : Bool :=
  (List.range l.length).any (fun i =>
    decide (l.get? i = some '<') &&
    match charIdxFrom l '>' (i + 1) with
    | some g => decide (i + 2 ≤ g) && decide (l.get? (g - 1) = some '/')
    | none => false)

/-- End-offset search before the outerHTML-based estimates
(xpath-worker.ts:183-262): the self-closing branch keyed on the (unanchored)
window test, otherwise the nesting depth scan with the
first-subsequent-closing-tag fallback. -/
def elementEndPrimary (cs : List Char) (name : List Char) (startOffset : Nat) :
    Int :=
  let openTag := substrJS cs startOffset (startOffset + 100)
  let closeTag := '<' :: '/' :: (name ++ ['>'])
  let fallbackClose : Int :=
    match idxOfFrom cs closeTag startOffset with
    | some i => ((i + closeTag.length : Nat) : Int)
    | none => -1
  if selfClosingIn openTag then
    match charIdxFrom cs '>' startOffset with
    | some g => ((g + 1 : Nat) : Int)
    | none => -1
  else
    let opens := ((collectMatches (fun i => matchOpenTagAt cs i name)
      cs.length).map Prod.fst).filter (fun p => startOffset ≤ p)
    let closes := ((collectMatches
      (fun i => if closeTag.isPrefixOf (cs.drop i) then some closeTag.length
                else none) cs.length).map Prod.fst).filter
      (fun p => startOffset ≤ p)
    match scanDepth startOffset (mergeEvents opens closes) true 1 with
    | some pos =>
      if startOffset < pos then ((pos + closeTag.length : Nat) : Int)
      else fallbackClose
    | none => fallbackClose

/-- End offset including the outerHTML estimates (xpath-worker.ts:265-275):
locate the last ≤20 characters of the serialization, else add its length. -/
def elementEndOffset (cs : List Char) (name : List Char) (startOffset : Nat)
    (outer : List Char) : Int :=
  let e := elementEndPrimary cs name startOffset
  if e = -1 && outer ≠ [] then
    let lastPart := outer.drop (outer.length - min 20 outer.length)
    match idxOfFrom cs lastPart startOffset with
    | some a => ((a + lastPart.length : Nat) : Int)
    | none => ((startOffset + outer.length : Nat) : Int)
  else e

/-- ELEMENT-NODE BRANCH of `calculateNodePosition` (xpath-worker.ts:64-288). -/
def elementPosition (content : String) (n : DomNode) : Int × Int :=
  let cs := content.data
  let nodeName := lowerChars n.nodeName.data
  let outer := (outerOrToString n).data
  let attrsS := attrStrings n
  let chunks := (attrsS.filter
    (fun a => !includesSub a.data "xmlns:".data)).map (fun a => lowerChars a.data)
  let lowHay := lowerChars cs
  let found := collectTagMatches lowHay nodeName chunks
  if found ≠ [] then
    let startOffset : Nat :=
      if found.length = 1 then (found.getD 0 (0, 0)).1
      else
        let scores := found.map (fun m => scoreCandidate cs n attrsS m.1)
        let b := bestIdxInt scores
        let bi : Nat := if b ≠ -1 then b.toNat else 0
        (found.getD bi (0, 0)).1
    ((startOffset : Int), elementEndOffset cs nodeName startOffset outer)
  else if outer ≠ [] then
    match findFirstMatchFrom (fun i => matchOpenTagAt cs i nodeName)
        cs.length 0 with
    | some (i, _) => ((i : Int), ((i + outer.length : Nat) : Int))
    | none => (-1, -1)
  else (-1, -1)

/-- `calculateNodePosition` (xpath-worker.ts:58-362): dispatch on the node
type; all other node types yield the `(-1, -1)` "not located" sentinels.  The
JS body is wrapped in a `try`/`catch` that preserves the sentinels; the
embedding is total, so the catch branch is the final default. -/
def calculateNodePosition (content : String) (n : DomNode) : Int × Int :=
  if n.nodeType = 1 then elementPosition content n
  else if n.nodeType = 3 then textPosition content n
  else if n.nodeType = 2 then attributePosition content n
  else (-1, -1)

/-- `extractNodeValue` (xpath-worker.ts:424-440).  For an attribute node the
source reads `node.value || ''`, the attribute's value string, which equals
its `nodeValue`. -/
def extractNodeValue (n : DomNode) : String :=
  if n.nodeType = 1 then outerOrToString n
  else if n.nodeType = 3 || n.nodeType = 4 then n.nodeValue
  else if n.nodeType = 2 then n.nodeValue
  else if n.nodeType = 8 then "<!--" ++ n.nodeValue ++ "-->"
  else if n.nodeType = 7 then "<?" ++ n.target ++ " " ++ n.nodeValue ++ "?>"
  else n.toStr

/-- One row of the worker's evaluation output (xpath-worker.ts:396-412): the
object literal always carries `startOffset` and `endOffset` (`some _`), with
the `calculateNodePosition` sentinels when the node was not located. -/
structure MatchResult where
  value : String
  nodeType : Nat
  nodeName : String
  startOffset : Option Int
  endOffset : Option Int
deriving Repr, DecidableEq

/-- The per-node map body of `evaluateXPath` in the worker. -/
def buildMatch (content : String) (n : DomNode) : MatchResult :=
  let p := calculateNodePosition content n
  { value := extractNodeValue n
    nodeType := n.nodeType
    nodeName := n.nodeName
    startOffset := some p.1
    endOffset := some p.2 }

/-- The assembled result of the worker's `evaluateXPath` (the external
parse/evaluate steps are a black box producing the node list; the node-type
histogram and wall-clock time are irrelevant to the claims and omitted). -/
structure EvalSummary where
  matchList : List MatchResult
  count : Nat
deriving Repr

/-- `evaluateXPath` result assembly (xpath-worker.ts:396-418); `matchList`
embeds the `matches` field of the source (a Lean keyword). -/
def evaluateXPathWorker (content : String) (nodes : List DomNode) :
    EvalSummary :=
  let ms := nodes.map (buildMatch content)
  { matchList := ms, count := ms.length }

/-- `String` wrapper for `trimChars`. -/
def trimString (s : String) : String := ⟨trimChars s.data⟩

/-- Backend direct-path row value (backend services/xpath-service.ts:71-77):
`((node as any).nodeValue || (node as any).textContent || '').trim()` — the
same trimmed text for every node type, never the outer markup. -/
def backendMatchValue (n : DomNode) : String :=
  trimString (if n.nodeValue ≠ "" then n.nodeValue
              else if n.textContent ≠ "" then n.textContent else "")

/-- The worker's response messages (`self.postMessage` payloads). -/
inductive WorkerResponse
  | result (matchList : List MatchResult) (count : Nat)
  | error (msg : String)
deriving Repr, DecidableEq

/-- The worker's `self.onmessage` handler for an `evaluate` request
(xpath-worker.ts:21-45), with the external parse + evaluate pipeline
abstracted into its outcome: `.ok` carries the matched node list, `.error`
carries the thrown error's message (`""` for a falsy message, triggering the
`'Unknown error evaluating XPath'` default). -/
def workerOnEvaluate (content : String)
    (outcome : Except String (List DomNode)) : WorkerResponse :=
  match outcome with
  | .ok nodes =>
    let r := evaluateXPathWorker content nodes
    .result r.matchList r.count
  | .error m => .error (if m = "" then "Unknown error evaluating XPath" else m)

/-- The backend controller's HTTP reply shape. -/
structure HttpResponse where
  status : Nat
  errorField : Option String
  details : Option String
  matchCount : Option Nat
deriving Repr, DecidableEq

/-- The backend controller `evaluateXPath` (backend controllers/xpath.ts:15-33)
past validation: 200 with the results on success, 500 with the fixed error
string and the thrown message as `details` on failure. -/
def controllerEvaluate (outcome : Except String (List MatchResult)) :
    HttpResponse :=
  match outcome with
  | .ok ms =>
    { status := 200, errorField := none, details := none
      matchCount := some ms.length }
  | .error m =>
    { status := 500, errorField := some "Error evaluating XPath expression"
      details := some m, matchCount := none }

/-- Routes the frontend `evaluateXPath` can dispatch to
(frontend utils/xpath-service.ts:30-43). -/
inductive FrontendRoute
  | api
  | localWorker
deriving Repr, DecidableEq

/-- The frontend routing decision: `new Blob([content]).size / (1024 * 1024)
> 5` chooses the backend API, otherwise the local WebWorker evaluation;
`sizeInBytes` is the blob's byte size. -/
def routeFrontend (sizeInBytes : Nat) : FrontendRoute :=
  if ((sizeInBytes : ℚ) / (1024 * 1024)) > 5 then .api else .localWorker

/-- Routes the backend `evaluateXPathOnDocument` can dispatch to
(backend services/xpath-service.ts:27-39). -/
inductive BackendRoute
  | workerThread
  | direct
deriving Repr, DecidableEq

/-- The backend routing decision: `content.length > 5 * 1024 * 1024` chooses
the worker thread, otherwise direct in-process evaluation. -/
def routeBackend (contentLength : Nat) : BackendRoute :=
  if contentLength > 5 * 1024 * 1024 then .workerThread else .direct

/-- An attribute node `a="v"`, as handed to `extractNodeValue`. -/
def attrNodeAV : DomNode :=
  { nodeType := 2, nodeName := "a", nodeValue := "v"
    outerHTML := "", toStr := "a=\"v\"", attrsList := []
    textContent := "v", descendantTags := [], parentName := some "p" }

/-- The `<div> T </div>` element as the backend direct path sees it. -/
def backendDivNode : DomNode :=
  { nodeType := 1, nodeName := "div", nodeValue := ""
    outerHTML := "<div> T </div>", toStr := "<div> T </div>"
    attrsList := [], textContent := " T ", descendantTags := []
    parentName := some "#document" }

/-- `String` lower-casing. -/
def lowerStr (s : String) : String := ⟨lowerChars s.data⟩

/-- The temporary marker attribute of the click worker
(click-to-xpath-worker.ts:38). -/
def XTRACTA_ID_ATTR : String := "data-xtracta-temp-id"

/-- The parsed document tree used by the click worker: element nodes with
ordered attributes and child nodes, and text nodes.  The root stands for the
`documentElement` (whose `parentElement` is null). -/
inductive DTree where
  | elem (tagName : String) (attrs : List (String × String)) (children : List DTree)
  | textN (s : String)
deriving Repr

/-- The child-node list of a node. -/
def DTree.childList : DTree → List DTree
  | .elem _ _ cs => cs
  | .textN _ => []

/-- Whether a node is an element (`nodeType === 1`). -/
def DTree.isElem : DTree → Bool
  | .elem _ _ _ => true
  | .textN _ => false

/-- The tag name of a node (`""` for text nodes). -/
def DTree.tag : DTree → String
  | .elem t _ _ => t
  | .textN _ => ""

/-- `getAttribute`: `none` models the DOM's `null` for an absent attribute
(duplicates are impossible in a parsed document, so the first hit is the
value). -/
def getAttr (t : DTree) (name : String) : Option String :=
  match t with
  | .elem _ attrs _ => (attrs.find? (fun a => a.1 = name)).map (fun a => a.2)
  | .textN _ => none

/-- A node in a document is addressed by its root and the child-index path
from the root; the empty path is the root element itself. -/
def nodeAt : DTree → List Nat → Option DTree
  | t, [] => some t
  | t, i :: p =>
    match t.childList.get? i with
    | some c => nodeAt c p
    | none => none

/-- One `/tag` or `/tag[k]` step for the element `e` sitting at index `i` of
the children of the node at `pp`: the `[k]` (1-based, counted among same-tag
element siblings) appears only when more than one such sibling exists —
shared by both `generateXPath` implementations
(click-to-xpath-worker.ts:430-444, ClickToXPathProvider.tsx:346-358). -/
def siblingStep (root : DTree) (pp : List Nat) (i : Nat) (tagL : String) :
    String :=
  match nodeAt root pp with
  | some parent =>
    let cs := parent.childList
    let idxs := (List.range cs.length).filter (fun j =>
      match cs.get? j with
      | some c => c.isElem && decide (lowerStr c.tag = tagL)
      | none => false)
    if 1 < idxs.length then
      "/" ++ tagL ++ "[" ++ toString (idxs.indexOf i + 1) ++ "]"
    else "/" ++ tagL
  | none => "/" ++ tagL

/-- The relative-path loop from the element up to (excluding) the id-bearing
ancestor (click-to-xpath-worker.ts:421-447): walk `parentElement` upward,
prepending a step per level; breaks without a step when the parent is
missing. -/
def relPathParts (root : DTree) :
    Nat → List Nat → List Nat → List String → List String
  | 0, _, _, acc => acc
  | fuel + 1, pathCurrent, parentPath, acc =>
    if pathCurrent = parentPath then acc
    else
      match nodeAt root pathCurrent with
      | none => acc
      | some e =>
        if pathCurrent = [] then acc
        else
          let pp := pathCurrent.dropLast
          let i := (pathCurrent.getLast?).getD 0
          relPathParts root fuel pp parentPath
            (siblingStep root pp i (lowerStr e.tag) :: acc)

/-- The absolute-path loop (click-to-xpath-worker.ts:456-485): walk to the
root, prepending `/tag` (`/tag[k]` among same-tag siblings); the root level
contributes the plain `/tag`. -/
def absPathParts (root : DTree) :
    Nat → Option (List Nat) → List String → List String
  | 0, _, acc => acc
  | _ + 1, none, acc => acc
  | fuel + 1, some current, acc =>
    match nodeAt root current with
    | none => acc
    | some e =>
      if current = [] then absPathParts root fuel none (("/" ++ lowerStr e.tag) :: acc)
      else
        let pp := current.dropLast
        let i := (current.getLast?).getD 0
        absPathParts root fuel (some pp)
          (siblingStep root pp i (lowerStr e.tag) :: acc)

/-- The worker's ancestor search (click-to-xpath-worker.ts:409-453): the
nearest ancestor whose `id` is non-empty *and* which does not carry the
temporary marker. -/
def findAncestorRealId (root : DTree) :
    Nat → List Nat → Option (List Nat × String)
  | 0, _ => none
  | fuel + 1, current =>
    if current = [] then none
    else
      let pp := current.dropLast
      match nodeAt root pp with
      | none => none
      | some parent =>
        match getAttr parent "id" with
        | some pid =>
          if pid ≠ "" && (getAttr parent XTRACTA_ID_ATTR).isNone then
            some (pp, pid)
          else findAncestorRealId root fuel pp
        | none => findAncestorRealId root fuel pp

/-- The provider's ancestor search (ClickToXPathProvider.tsx:327-367): keyed
on `parent.id` alone, without the temporary-marker exclusion. -/
def findAncestorAnyId (root : DTree) :
    Nat → List Nat → Option (List Nat × String)
  | 0, _ => none
  | fuel + 1, current =>
    if current = [] then none
    else
      let pp := current.dropLast
      match nodeAt root pp with
      | none => none
      | some parent =>
        if (getAttr parent "id").getD "" ≠ "" then
          some (pp, (getAttr parent "id").getD "")
        else findAncestorAnyId root fuel pp

/-- Steps 2-3 shared by both synthesizers, parameterized by the ancestor
search. -/
def xpathFromAncestorOrAbsolute (root : DTree) (path : List Nat)
    (ancestor : Option (List Nat × String)) : String :=
  match ancestor with
  | some (pp, pid) =>
    "//*[@id=\"" ++ pid ++ "\"]" ++
      String.join (relPathParts root (path.length + 1) path pp [])
  | none => String.join (absPathParts root (path.length + 1) (some path) [])

/-- `generateXPath` of the click worker (click-to-xpath-worker.ts:394-486):
the `//*[@id="…"]` shortcut applies only when the element's `id` is non-empty
*and* the element does not carry the temporary `data-xtracta-temp-id`
marker; the `!element` guard maps to the invalid-path case. -/
def generateXPathWorker (root : DTree) (path : List Nat) : String :=
  match nodeAt root path with
  | none => ""
  | some e =>
    match getAttr e "id" with
    | some v =>
      if v ≠ "" && (getAttr e XTRACTA_ID_ATTR).isNone then
        "//*[@id=\"" ++ v ++ "\"]"
      else
        xpathFromAncestorOrAbsolute root path
          (findAncestorRealId root (path.length + 1) path)
    | none =>
      xpathFromAncestorOrAbsolute root path
        (findAncestorRealId root (path.length + 1) path)

/-- `generateXPath` of the in-process provider
(ClickToXPathProvider.tsx:317-397): the shortcut is keyed on `element.id`
alone. -/
def generateXPathProvider (root : DTree) (path : List Nat) : String :=
  match nodeAt root path with
  | none => ""
  | some e =>
    if (getAttr e "id").getD "" ≠ "" then
      "//*[@id=\"" ++ (getAttr e "id").getD "" ++ "\"]"
    else
      xpathFromAncestorOrAbsolute root path
        (findAncestorAnyId root (path.length + 1) path)

/-- A `<div id="x">` that still carries the temporary marker attribute. -/
def tempMarkedDiv : DTree :=
  .elem "div" [("id", "x"), ("data-xtracta-temp-id", "t")] []

/-- A plain `<div id="x">`. -/
def plainIdDiv : DTree := .elem "div" [("id", "x")] []

/-- JS `lastIndexOf(c)` without a `fromIndex` (search the whole string). -/
def lastCharIdx (hay : List Char) (c : Char) : Option Nat :=
  lastCharIdxLe hay c hay.length

/-- Overwrite-or-append assignment into the `attributes` record object
(later assignments win, key order is first insertion). -/
def upsert (l : List (String × String)) (k v : String) :
    List (String × String) :=
  if l.any (fun a => a.1 = k) then
    l.map (fun a => if a.1 = k then (k, v) else a)
  else l ++ [(k, v)]

/-- The attribute-parsing loop shared by the click worker's regexes
`/([a-zA-Z0-9_:-]+)(?:=(?:"([^"]*)"|'([^']*)'|([^\s>]*))?)?/g`
(click-to-xpath-worker.ts:90-98, 274-282, 825-833): per match, a name run,
then optionally `=` and a double-quoted, single-quoted, or bare value; an
unterminated quote falls back to the bare `[^\s>]*` alternative (which then
includes the quote character); characters that cannot start a match are
skipped. -/
def parseAttrsAux : Nat → List Char → List (String × String) →
    List (String × String)
  | 0, _, acc => acc
  | fuel + 1, s, acc =>
    let s1 := s.dropWhile (fun c => !isNameChar c)
    if s1.isEmpty then acc
    else
      let nm := nameRun s1
      let rest := s1.drop nm.length
      match rest with
      | '=' :: r2 =>
        match r2 with
        | '"' :: r3 =>
          match charIdxFrom r3 '"' 0 with
          | some q =>
            parseAttrsAux fuel (r3.drop (q + 1))
              (upsert acc ⟨nm⟩ ⟨r3.take q⟩)
          | none =>
            let v := r2.takeWhile (fun c => !isWs c && c ≠ '>')
            parseAttrsAux fuel (r2.drop v.length) (upsert acc ⟨nm⟩ ⟨v⟩)
        | '\x27' :: r3 =>
          match charIdxFrom r3 '\x27' 0 with
          | some q =>
            parseAttrsAux fuel (r3.drop (q + 1))
              (upsert acc ⟨nm⟩ ⟨r3.take q⟩)
          | none =>
            let v := r2.takeWhile (fun c => !isWs c && c ≠ '>')
            parseAttrsAux fuel (r2.drop v.length) (upsert acc ⟨nm⟩ ⟨v⟩)
        | _ =>
          let v := r2.takeWhile (fun c => !isWs c && c ≠ '>')
          parseAttrsAux fuel (r2.drop v.length) (upsert acc ⟨nm⟩ ⟨v⟩)
      | _ => parseAttrsAux fuel rest (upsert acc ⟨nm⟩ "")

/-- Attribute parsing of a (trimmed) attribute substring. -/
def parseAttrsJS (s : String) : List (String × String) :=
  parseAttrsAux (s.length + 1) s.data []

/-- One match of the closing-tag regex `<\/([a-zA-Z0-9_:-]+)>` at `i`. -/
def matchCloseAt (l : List Char) (i : Nat) : Option Nat :=
  match l.get? i, l.get? (i + 1) with
  | some '<', some '/' =>
    let nm := nameRun (l.drop (i + 2))
    if !nm.isEmpty && l.get? (i + 2 + nm.length) = some '>' then
      some (nm.length + 3)
    else none
  | _, _ => none

/-- One match of the opening-tag regex `<([a-zA-Z0-9_:-]+)([^>]*?)(\/?)>` at
`i`: `<`, a name run, then everything to the first later `>`. -/
def matchOpenFullAt (l : List Char) (i : Nat) : Option Nat :=
  if l.get? i = some '<' then
    let nm := nameRun (l.drop (i + 1))
    if nm.isEmpty then none
    else
      match charIdxFrom l '>' (i + 1 + nm.length) with
      | some g => some (g + 1 - i)
      | none => none
  else none

/-- One match of the any-tag regex `<\/?([a-zA-Z0-9_:-]+)[^>]*>` at `i`. -/
def matchAnyTagAt (l : List Char) (i : Nat) : Option Nat :=
  if l.get? i = some '<' then
    let off : Nat := if l.get? (i + 1) = some '/' then 2 else 1
    let nm := nameRun (l.drop (i + off))
    if nm.isEmpty then none
    else
      match charIdxFrom l '>' (i + off + nm.length) with
      | some g => some (g + 1 - i)
      | none => none
  else none

/-- The attribute substring (capture 2) of an opening-tag match `(i, len)`:
from the end of the name to the `>` — excluding a directly preceding `/`
(capture 3). -/
def openMatchAttrSpan (l : List Char) (i len : Nat) : List Char :=
  let nm := nameRun (l.drop (i + 1))
  let nameEnd := i + 1 + nm.length
  let g := i + len - 1
  if nameEnd + 1 ≤ g && l.get? (g - 1) = some '/' then
    substrJS l nameEnd (g - 1)
  else substrJS l nameEnd g

/-- The `ElementMatch` record of the click worker (tag under the cursor). -/
structure ElementMatch where
  tagName : String
  attributes : List (String × String)
  startIndex : Nat
  endIndex : Nat
  isClosingTag : Bool := false
deriving Repr, DecidableEq

/-- The `partialTagInfo` record; `ptype` embeds the source's `type` field
(`"opening"`, `"closing"` or `"unknown"`). -/
structure PartialTagInfo where
  ptype : String
  tagName : Option String := none
  hasOpeningBracket : Bool
  hasClosingBracket : Bool
deriving Repr, DecidableEq

/-- The result record of `findElementAtPosition`. -/
structure FindResult where
  elementMatch : Option ElementMatch
  isPartialTag : Bool
  partialTagInfo : Option PartialTagInfo := none
deriving Repr, DecidableEq

/-- The attribute-only-line test of branch 3 (click-to-xpath-worker.ts:161):
after `trimLeft`, the regex
`^\s*[a-zA-Z0-9_:-]+=("[^"]*"|'[^']*'|[^\s>]*)` succeeds exactly when a name
run followed by `=` starts the line (the bare-value alternative also matches
the empty string). -/
def attrLineTest (l : List Char) : Bool :=
  let t := trimLeftChars l
  let nm := nameRun t
  !nm.isEmpty && t.get? nm.length = some '='

/-- `findElementAtPosition` (click-to-xpath-worker.ts:44-190). -/
def findElementAtPosition (line : String) (column : Nat)
    (surroundingLines : Option String) : FindResult :=
  let ls := line.data
  let closings := collectMatches (matchCloseAt ls) ls.length
  match closings.find?
      (fun m => decide (m.1 ≤ column) && decide (column ≤ m.1 + m.2)) with
  | some (i, len) =>
    { elementMatch := some
        { tagName := ⟨nameRun (ls.drop (i + 2))⟩, attributes := []
          startIndex := i, endIndex := i + len, isClosingTag := true }
      isPartialTag := false }
  | none =>
    let openings := collectMatches (matchOpenFullAt ls) ls.length
    match openings.find?
        (fun m => decide (m.1 ≤ column) && decide (column ≤ m.1 + m.2)) with
    | some (i, len) =>
      { elementMatch := some
          { tagName := ⟨nameRun (ls.drop (i + 1))⟩
            attributes := parseAttrsJS ⟨trimChars (openMatchAttrSpan ls i len)⟩
            startIndex := i, endIndex := i + len }
        isPartialTag := false }
    | none =>
      let openingBracketPos := lastCharIdxLe ls '<' column
      let closingBracketPos := charIdxFrom ls '>' column
      match openingBracketPos, closingBracketPos with
      | some ob, cbp =>
        if cbp.isNone || (cbp.getD 0 < ob) then
          let partialTag := ls.drop ob
          let isClosing := partialTag.get? 1 = some '/'
          let run := if isClosing then nameRun (partialTag.drop 2)
                     else nameRun (partialTag.drop 1)
          { elementMatch := none, isPartialTag := true
            partialTagInfo := some
              { ptype := if isClosing then "closing" else "opening"
                tagName := if run.isEmpty then none else some ⟨run⟩
                hasOpeningBracket := true, hasClosingBracket := false } }
        else
          -- `ob ≤ cb`: branch 4 (closing bracket after, opening before it)
          -- cannot fire with both present, and branches 5/6 need `ob = -1`
          -- or `cb = -1`; with both brackets present nothing else matches.
          { elementMatch := none, isPartialTag := false }
      | none, some _ =>
        { elementMatch := none, isPartialTag := true
          partialTagInfo := some
            { ptype := "unknown", hasOpeningBracket := false
              hasClosingBracket := true } }
      | none, none =>
        if surroundingLines.isSome && attrLineTest ls then
          { elementMatch := none, isPartialTag := true
            partialTagInfo := some
              { ptype := "unknown", hasOpeningBracket := false
                hasClosingBracket := false } }
        else { elementMatch := none, isPartialTag := false }

/-- JS array access `l[i]` followed by a method call: out-of-range indices
yield `undefined` and the call throws a `TypeError`, modelled as the thrown
message. -/
def jsStrAt (l : List String) (i : Int) : Except String String :=
  if 0 ≤ i ∧ i.toNat < l.length then .ok (l.getD i.toNat "")
  else .error "Cannot read properties of undefined"

/-- `completeTag.replace(/\s+/g, ' ')`: collapse whitespace runs. -/
def collapseWsAux : List Char → Bool → List Char
  | [], _ => []
  | c :: rest, inWs =>
    if isWs c then
      if inWs then collapseWsAux rest true
      else ' ' :: collapseWsAux rest true
    else c :: collapseWsAux rest false

/-- Whitespace normalization of the assembled multi-line tag. -/
def collapseWs (l : List Char) : List Char := collapseWsAux l false

/-- `content.split('\n')` (structural, so that concrete evaluations reduce
definitionally). -/
def splitLinesAux : List Char → List Char → List String
  | [], acc => [⟨acc.reverse⟩]
  | c :: rest, acc =>
    if c = '\n' then ⟨acc.reverse⟩ :: splitLinesAux rest []
    else splitLinesAux rest (c :: acc)

/-- JS `content.split('\n')`. -/
def splitLinesJS (s : String) : List String := splitLinesAux s.data []

/-- JS `lines.join('\n')` (structural). -/
def joinWith : List String → String → String
  | [], _ => ""
  | [x], _ => x
  | x :: y :: xs, sep => x ++ sep ++ joinWith (y :: xs) sep

/-- The backward opening-bracket search of the multi-line assembly
(click-to-xpath-worker.ts:215-218): while not found and lines remain above,
step up and take the line's last `<`. -/
def backBracketLoop (lines : List String) : Nat → Nat → Option Nat × Nat
  | 0, obLine => (none, obLine)
  | fuel + 1, obLine =>
    if 0 < obLine then
      let ob2 := obLine - 1
      match lastCharIdx (lines.getD ob2 "").data '<' with
      | some k => (some k, ob2)
      | none => backBracketLoop lines fuel ob2
    else (none, obLine)

/-- The forward closing-bracket search (click-to-xpath-worker.ts:225-228). -/
def fwdBracketLoop (lines : List String) : Nat → Nat → Option Nat × Nat
  | 0, cbLine => (none, cbLine)
  | fuel + 1, cbLine =>
    if cbLine < lines.length - 1 then
      let cb2 := cbLine + 1
      match charIdxFrom (lines.getD cb2 "").data '>' 0 with
      | some k => (some k, cb2)
      | none => fwdBracketLoop lines fuel cb2
    else (none, cbLine)

/-- `extractCompleteTagFromMultilineContext` (click-to-xpath-worker.ts:196-286).
The assembled, whitespace-normalized tag is parsed; a closing tag returns its
name; an opening tag has its name and attributes parsed — and is then
discarded by the unconditional `return null` at the end of the branch
(click-to-xpath-worker.ts:284), so the function never returns an opening
tag.  The `partialInfo` argument is never read by the body.  A click on line
0 makes `lines[lineIndex - 1]` undefined and the first `lastIndexOf` call
throw. -/
def extractCompleteTagFromMultilineContext (lines : List String)
    (lineIndex columnIndex : Nat) (partialInfo : PartialTagInfo) :
    Except String (Option String) := do
  let _ := partialInfo
  let clickedLine ← jsStrAt lines ((lineIndex : Int) - 1)
  let obRes : Option Nat × Nat :=
    match lastCharIdxLe clickedLine.data '<' columnIndex with
    | some p => (some p, lineIndex - 1)
    | none => backBracketLoop lines lineIndex (lineIndex - 1)
  let cbRes : Option Nat × Nat :=
    match charIdxFrom clickedLine.data '>' columnIndex with
    | some p => (some p, lineIndex - 1)
    | none => fwdBracketLoop lines lines.length (lineIndex - 1)
  match obRes.1, cbRes.1 with
  | some obPos, some cbPos =>
    let obLine := obRes.2
    let cbLine := cbRes.2
    let middle : List Char :=
      ((List.range (cbLine - (obLine + 1))).map (fun k =>
        ' ' :: (lines.getD (obLine + 1 + k) "").data)).flatten
    let tail : List Char :=
      if obLine < cbLine then
        ' ' :: (lines.getD cbLine "").data.take (cbPos + 1)
      else []
    let completeTag :=
      collapseWs ((lines.getD obLine "").data.drop obPos ++ middle ++ tail)
    let isClosingTag := ['<', '/'].isPrefixOf completeTag
    if isClosingTag then
      match (collectMatches (matchCloseAt completeTag) completeTag.length).head? with
      | some (i, _) => pure (some ⟨nameRun (completeTag.drop (i + 2))⟩)
      | none => pure none
    else
      match (collectMatches (matchOpenFullAt completeTag) completeTag.length).head? with
      | some (i, len) =>
        let _tagName : String := ⟨nameRun (completeTag.drop (i + 1))⟩
        let _attributes :=
          parseAttrsJS ⟨trimChars (openMatchAttrSpan completeTag i len)⟩
        pure none
      | none => pure none
  | _, _ => pure none

/-- The line index holding a character position
(click-to-xpath-worker.ts:758-769): accumulate line lengths (+1 per newline)
until the running total reaches the position; `0` when the loop never
breaks. -/
def lineOfPositionAux (approx : Nat) : List String → Nat → Nat → Option Nat
  | [], _, _ => none
  | l :: rest, idx, pos =>
    let pos2 := pos + l.length + 1
    if approx ≤ pos2 then some idx
    else lineOfPositionAux approx rest (idx + 1) pos2

/-- `currentLine` of `findMatchingOpeningTag`. -/
def lineOfPosition (lines : List String) (approx : Nat) : Nat :=
  (lineOfPositionAux approx lines 0 0).getD 0

/-- A tag occurrence of the any-tag scan: name, closing flag, position. -/
structure TagOcc where
  tagName : String
  isClosing : Bool
  position : Nat
deriving Repr, DecidableEq

/-- All tags of one line, in order (click-to-xpath-worker.ts:782-797). -/
def lineTags (line : String) : List TagOcc :=
  let ls := line.data
  (collectMatches (matchAnyTagAt ls) ls.length).map (fun m =>
    let isC := ls.get? (m.1 + 1) = some '/'
    { tagName := ⟨nameRun (ls.drop (m.1 + (if isC then 2 else 1)))⟩
      isClosing := isC, position := m.1 })

/-- The `/^<[^>]+>/` head-anchored full-tag extraction at a position, plus the
`/<[^ >]+(.*)>/` attribute-substring split used on its result
(click-to-xpath-worker.ts:816-822): the attribute string is everything after
the first space-free token, up to the final `>`, trimmed. -/
def openingTagTextAt (line : List Char) (pos : Nat) : Option (List Char) :=
  let tagText := line.drop pos
  if tagText.get? 0 = some '<' then
    match charIdxFrom tagText '>' 1 with
    | some g => if 2 ≤ g then some (tagText.take (g + 1)) else none
    | none => none
  else none

/-- The per-line right-to-left stack walk of `findMatchingOpeningTag`
(click-to-xpath-worker.ts:800-847): closing tags push, a matching opening tag
pops, and an opening tag named like the target with an empty stack is the
match. -/
def scanTagsBack (line : String) (closingTagName : String) :
    List TagOcc → List String → Option ElementMatch × List String
  | [], stack => (none, stack)
  | t :: rest, stack =>
    if t.isClosing then scanTagsBack line closingTagName rest (t.tagName :: stack)
    else
      match stack with
      | top :: stackRest =>
        if top = t.tagName then
          scanTagsBack line closingTagName rest stackRest
        else scanTagsBack line closingTagName rest stack
      | [] =>
        if t.tagName = closingTagName then
          match openingTagTextAt line.data t.position with
          | some fullTag =>
            let nm2 := (fullTag.drop 1).takeWhile (fun c => c ≠ ' ' && c ≠ '>')
            let attrsStr := substrJS fullTag (1 + nm2.length) (fullTag.length - 1)
            (some { tagName := t.tagName
                    attributes := parseAttrsJS ⟨trimChars attrsStr⟩
                    startIndex := t.position
                    endIndex := t.position + fullTag.length }, [])
          | none => scanTagsBack line closingTagName rest []
        else scanTagsBack line closingTagName rest []

/-- The backward line loop of `findMatchingOpeningTag`
(click-to-xpath-worker.ts:778-848), from `currentLine` down to 0. -/
def findOpeningTagLoop (lines : List String) (closingTagName : String) :
    Nat → Nat → List String → Option ElementMatch × Nat
  | 0, _, _ => (none, 0)
  | fuel + 1, lineNum, stack =>
    let line := lines.getD lineNum ""
    match scanTagsBack line closingTagName (lineTags line).reverse stack with
    | (some em, _) => (some em, lineNum + 1)
    | (none, stack2) =>
      if lineNum = 0 then (none, 0)
      else findOpeningTagLoop lines closingTagName fuel (lineNum - 1) stack2

/-- `findMatchingOpeningTag` (click-to-xpath-worker.ts:746-852). -/
def findMatchingOpeningTag (content : String) (closingTagName : String)
    (approximatePosition : Nat) : Option ElementMatch × Nat :=
  let lines := splitLinesJS content
  let currentLine := lineOfPosition lines approximatePosition
  findOpeningTagLoop lines closingTagName (currentLine + 1) currentLine []

/-- Insertion of the marker attribute before the `/(\s*\/?>)$/` suffix of a
self-closing tag (click-to-xpath-worker.ts:325/358). -/
def insertBeforeSelfClosingSuffix (tag ins : List Char) : List Char :=
  match tag.getLast? with
  | some '>' =>
    let k := tag.length - 1
    let j := if tag.get? (k - 1) = some '/' && 1 ≤ k then k - 1 else k
    let pre := tag.take j
    let i := j - (pre.reverse.takeWhile isWs).length
    tag.take i ++ ins ++ tag.drop i
  | _ => tag

/-- Insertion of the marker attribute before the final `>` (`/>$/` replace,
click-to-xpath-worker.ts:327/361). -/
def insertBeforeGt (tag ins : List Char) : List Char :=
  match tag.getLast? with
  | some '>' => tag.dropLast ++ ins ++ ['>']
  | _ => tag

/-- `addIdentifierToElement` (click-to-xpath-worker.ts:291-374): rewrite the
matched tag's line to carry ` data-xtracta-temp-id="<uniqueId>"`; for a
closing tag the matching opening tag's line is rewritten instead.  The
`uniqueId` (built in JS from `Date.now()` and `Math.random()`) is a
parameter.  When `lines[lineNumber - 1]` is undefined and the element match
has a positive `endIndex`, the `substring` call throws. -/
def addIdentifierToElement (content : String) (elementMatch : ElementMatch)
    (lineNumber : Nat) (approximatePosition : Nat) (uniqueId : String) :
    Except String (String × String) :=
  let lines := splitLinesJS content
  let ins : List Char :=
    (" " ++ XTRACTA_ID_ATTR ++ "=\"" ++ uniqueId ++ "\"").data
  if elementMatch.isClosingTag then
    match findMatchingOpeningTag content elementMatch.tagName
        approximatePosition with
    | (some openingTag, openingTagLineNumber) =>
      let line := (lines.getD (openingTagLineNumber - 1) "").data
      let beforeTag := line.take openingTag.startIndex
      let tag := substrJS line openingTag.startIndex openingTag.endIndex
      let afterTag := line.drop openingTag.endIndex
      let isSelfClosing := ['/', '>'].isSuffixOf tag
      let modifiedTag :=
        if isSelfClosing then insertBeforeSelfClosingSuffix tag ins
        else insertBeforeGt tag ins
      let modifiedLine : String := ⟨beforeTag ++ modifiedTag ++ afterTag⟩
      let newLines := lines.set (openingTagLineNumber - 1) modifiedLine
      .ok (joinWith newLines "\n", uniqueId)
    | (none, _) => .ok (content, uniqueId)
  else
    if 0 < elementMatch.endIndex then
      match jsStrAt lines ((lineNumber : Int) - 1) with
      | .error e => .error e
      | .ok lineS =>
        let line := lineS.data
        let beforeTag := line.take elementMatch.startIndex
        let tag := substrJS line elementMatch.startIndex elementMatch.endIndex
        let afterTag := line.drop elementMatch.endIndex
        let isSelfClosing := ['/', '>'].isSuffixOf tag
        let modifiedTag :=
          if isSelfClosing then insertBeforeSelfClosingSuffix tag ins
          else insertBeforeGt tag ins
        let modifiedLine : String := ⟨beforeTag ++ modifiedTag ++ afterTag⟩
        let newLines := lines.set (lineNumber - 1) modifiedLine
        .ok (joinWith newLines "\n", uniqueId)
    else .ok (content, uniqueId)

mutual

/-- Pre-order paths of all element nodes of a subtree
(`getElementsByTagName('*')` document order). -/
def allElemPathsT : DTree → List Nat → List (List Nat)
  | .textN _, _ => []
  | .elem _ _ cs, p => p :: allElemPathsList cs 0 p

/-- Pre-order paths of the element nodes of a child list. -/
def allElemPathsList : List DTree → Nat → List Nat → List (List Nat)
  | [], _, _ => []
  | c :: rest, i, p =>
    allElemPathsT c (p ++ [i]) ++ allElemPathsList rest (i + 1) p

end

/-- `generateXPathById` (click-to-xpath-worker.ts:379-389): the first element
carrying the temporary marker with the given id, fed to the worker's
`generateXPath`. -/
def generateXPathById (doc : DTree) (uniqueId : String) : Option String :=
  match (allElemPathsT doc []).find? (fun p =>
      match nodeAt doc p with
      | some e => decide (getAttr e XTRACTA_ID_ATTR = some uniqueId)
      | none => false) with
  | some p => some (generateXPathWorker doc p)
  | none => none

/-- `findElementInDocument` (click-to-xpath-worker.ts:673-724): by id first,
then all elements of the tag name (exact node-name match, as in xmldom),
then the most-attributes-matching filter (`matchCount / totalAttributes >
0.5`, which for machine floats of small integers is exactly
`totalAttributes < 2 * matchCount`); ties and failures fall back to the
first candidate. -/
def findElementInDocument (doc : DTree) (tagName : String)
    (attributes : List (String × String)) : Option (List Nat) :=
  let byId : Option (List Nat) :=
    match (attributes.find? (fun a => a.1 = "id")).map (fun a => a.2) with
    | some idv =>
      if idv ≠ "" then
        match (allElemPathsT doc []).find? (fun p =>
            match nodeAt doc p with
            | some e => decide (getAttr e "id" = some idv)
            | none => false) with
        | some p =>
          match nodeAt doc p with
          | some e =>
            if lowerStr e.tag = lowerStr tagName then some p else none
          | none => none
        | none => none
      else none
    | none => none
  match byId with
  | some p => some p
  | none =>
    let elems := (allElemPathsT doc []).filter (fun p =>
      match nodeAt doc p with
      | some e => decide (e.tag = tagName)
      | none => false)
    match elems with
    | [] => none
    | [single] => some single
    | _ =>
      let matching := elems.filter (fun p =>
        match nodeAt doc p with
        | some e =>
          let checks := attributes.filter (fun kv => kv.2 ≠ "")
          let total := checks.length
          let cnt := (checks.filter (fun kv =>
            getAttr e kv.1 = some kv.2)).length
          if 0 < total then decide (total < 2 * cnt) else true
        | none => false)
      match matching.head? with
      | some p => some p
      | none => elems.head?

/-- The click request message (click-to-xpath-worker.ts:17-31). -/
structure ClickRequest where
  id : Int
  content : String
  lineNumber : Nat
  column : Nat
  clickedLine : String
  approximatePosition : Nat
  surroundingLines : Option String := none
  partialTagInfo : Option PartialTagInfo := none
deriving Repr

/-- The click response message. -/
structure ClickResult where
  id : Int
  xpath : Option String
  error : Option String := none
deriving Repr, DecidableEq

/-- `handleFallbackXPathGeneration` (click-to-xpath-worker.ts:605-667),
with the parser adapter as a parameter. -/
def handleFallbackXPathGeneration (parse : String → DTree)
    (request : ClickRequest) (elementMatch : ElementMatch) : ClickResult :=
  let originalDoc := parse request.content
  let noXPath : ClickResult :=
    { id := request.id, xpath := none
      error := some "Could not generate XPath for the selected element" }
  if elementMatch.isClosingTag then
    match (findMatchingOpeningTag request.content elementMatch.tagName
        request.approximatePosition).1 with
    | some openingTag =>
      match findElementInDocument originalDoc openingTag.tagName
          openingTag.attributes with
      | some p =>
        { id := request.id, xpath := some (generateXPathWorker originalDoc p) }
      | none => noXPath
    | none => noXPath
  else
    match findElementInDocument originalDoc elementMatch.tagName
        elementMatch.attributes with
    | some p =>
      { id := request.id, xpath := some (generateXPathWorker originalDoc p) }
    | none => noXPath

/-- The body of `handleClickToXPath` before its `catch`
(click-to-xpath-worker.ts:492-592): a thrown error propagates as `.error`. -/
def handleClickToXPathCore (parse : String → DTree) (uniqueId : String)
    (request : ClickRequest) : Except String ClickResult :=
  let lines := splitLinesJS request.content
  let fr := findElementAtPosition request.clickedLine request.column
    request.surroundingLines
  let noElement : ClickResult :=
    { id := request.id, xpath := none
      error := some "No element found at the clicked position" }
  match fr.elementMatch with
  | some elementMatch =>
    match addIdentifierToElement request.content elementMatch
        request.lineNumber request.approximatePosition uniqueId with
    | .error e => .error e
    | .ok (modifiedContent, uid) =>
      let xmlDoc := parse modifiedContent
      match generateXPathById xmlDoc uid with
      | some xp =>
        if xp ≠ "" then .ok { id := request.id, xpath := some xp }
        else .ok (handleFallbackXPathGeneration parse request elementMatch)
      | none => .ok (handleFallbackXPathGeneration parse request elementMatch)
  | none =>
    if fr.isPartialTag then
      match extractCompleteTagFromMultilineContext lines request.lineNumber
          request.column
          (request.partialTagInfo.getD
            { ptype := "unknown", hasOpeningBracket := false
              hasClosingBracket := false }) with
      | .error e => .error e
      | .ok (some completeTag) =>
        if completeTag ≠ "" then
          let em : ElementMatch :=
            { tagName := completeTag, attributes := []
              startIndex := 0, endIndex := 0, isClosingTag := false }
          match addIdentifierToElement request.content em request.lineNumber
              request.approximatePosition uniqueId with
          | .error e => .error e
          | .ok (modifiedContent, uid) =>
            let xmlDoc := parse modifiedContent
            match generateXPathById xmlDoc uid with
            | some xp =>
              if xp ≠ "" then .ok { id := request.id, xpath := some xp }
              else .ok (handleFallbackXPathGeneration parse request em)
            | none => .ok (handleFallbackXPathGeneration parse request em)
        else .ok noElement
      | .ok none => .ok noElement
    else .ok noElement

/-- `handleClickToXPath` (click-to-xpath-worker.ts:491-600): the surrounding
`try`/`catch` turns any thrown error into a tagged failure that keeps the
request's id. -/
def handleClickToXPath (parse : String → DTree) (uniqueId : String)
    (request : ClickRequest) : ClickResult :=
  match handleClickToXPathCore parse uniqueId request with
  | .ok r => r
  | .error msg =>
    { id := request.id, xpath := none
      error := some (if msg = "" then "Unknown error generating XPath"
                     else msg) }

/-- A trivial parser-adapter stand-in for evaluations that never reach the
parse step. -/
def dummyParse : String → DTree := fun _ => .elem "html" [] []

/-- The concrete C6 click: an unmatched `<div` at the end of line 1, the `>`
on line 2, click at column 2 inside the fragment. -/
def c6Request : ClickRequest :=
  { id := 7, content := "<div\n>hello</div>", lineNumber := 1, column := 2
    clickedLine := "<div", approximatePosition := 2
    surroundingLines := some "<div\n>hello</div>" }

/-- The spec's invariant on a match row ("either has both offsets absent, or
`0 <= startOffset < endOffset <= length(sourceText)`").  Modelled from the
spec to compare against what the code produces. -/
def offsetsWellFormedSpec (content : String) (m : MatchResult) : Prop :=
  (m.startOffset = none ∧ m.endOffset = none) ∨
  (∃ s e : Int, m.startOffset = some s ∧ m.endOffset = some e ∧
    0 ≤ s ∧ s < e ∧ e ≤ (content.data.length : Int))

/-- The unique `<p>` element of the document `<p>a<br/>b</p>`, as the parser
adapter hands it to `calculateNodePosition`. -/
def brParagraphNode : DomNode :=
  { nodeType := 1, nodeName := "p", nodeValue := ""
    outerHTML := "<p>a<br/>b</p>", toStr := "<p>a<br/>b</p>"
    attrsList := [], textContent := "ab", descendantTags := ["br"]
    parentName := some "#document" }

/-- The text node ` hi ` (with surrounding spaces) under a `<p>` parent. -/
def spacedTextNode : DomNode :=
  { nodeType := 3, nodeName := "#text", nodeValue := " hi "
    outerHTML := "", toStr := " hi ", attrsList := []
    textContent := " hi ", descendantTags := [], parentName := some "p" }

/-- A whitespace-only text node under a `<p>` parent. -/
def wsTextNode : DomNode :=
  { nodeType := 3, nodeName := "#text", nodeValue := "  \n "
    outerHTML := "", toStr := "  \n ", attrsList := []
    textContent := "  \n ", descendantTags := [], parentName := some "p" }

/-- A comment node, a node type the locator does not handle. -/
def commentNode : DomNode :=
  { nodeType := 8, nodeName := "#comment", nodeValue := "c"
    outerHTML := "", toStr := "<!--c-->", attrsList := []
    textContent := "c", descendantTags := [], parentName := some "p" }

section Lemmas

/-- Soundness of the substring search: a hit is at or after `start` and the
pattern is a prefix of the tail there. -/
theorem idxOfFrom_sound {hay pat : List Char} {start i : Nat}
    (h : idxOfFrom hay pat start = some i) :
    start ≤ i ∧ pat.isPrefixOf (hay.drop i) = true := by
  have h2 := List.find?_some h
  simpa using h2

theorem isPrefixOf_take {pat l : List Char} (h : pat.isPrefixOf l = true) :
    l.take pat.length = pat := by
  have hp : pat <+: l := by simpa using h
  exact (List.prefix_iff_eq_take.mp hp).symm

/-- A pattern found at position `s` is the substring `[s, s + pat.length)`. -/
theorem substrJS_at_found (cs pat : List Char) (s : Nat)
    (h : pat.isPrefixOf (cs.drop s) = true) :
    substrJS cs s (s + pat.length) = pat := by
  unfold substrJS
  rw [List.drop_take]
  simpa using isPrefixOf_take h

/-- The text-node branch either locates (a `Nat`-cast start) or returns the
sentinels. -/
theorem textPosition_fst_cases (content : String) (n : DomNode) :
    (∃ s : Nat, (textPosition content n).1 = (s : Int)) ∨
    textPosition content n = (-1, -1) := by
  unfold textPosition
  dsimp only
  repeat' split
  all_goals first
    | exact Or.inr rfl
    | exact Or.inl ⟨_, rfl⟩

/-- The attribute-node branch either locates or returns the sentinels. -/
theorem attributePosition_fst_cases (content : String) (n : DomNode) :
    (∃ s : Nat, (attributePosition content n).1 = (s : Int)) ∨
    attributePosition content n = (-1, -1) := by
  unfold attributePosition
  dsimp only
  repeat' split
  all_goals first
    | exact Or.inr rfl
    | exact Or.inl ⟨_, rfl⟩

/-- The element branch either locates or returns the sentinels. -/
theorem elementPosition_fst_cases (content : String) (n : DomNode) :
    (∃ s : Nat, (elementPosition content n).1 = (s : Int)) ∨
    elementPosition content n = (-1, -1) := by
  unfold elementPosition
  dsimp only
  repeat' split
  all_goals first
    | exact Or.inr rfl
    | exact Or.inl ⟨_, rfl⟩

/-- `calculateNodePosition` never pairs a `-1` start with a located end. -/
theorem calculateNodePosition_snd_sentinel (content : String) (n : DomNode)
    (h : (calculateNodePosition content n).1 = -1) :
    (calculateNodePosition content n).2 = -1 := by
  by_cases h1 : n.nodeType = 1
  · have hc : calculateNodePosition content n = elementPosition content n := by
      unfold calculateNodePosition; rw [if_pos h1]
    rw [hc] at h ⊢
    rcases elementPosition_fst_cases content n with ⟨s, hs⟩ | he
    · rw [hs] at h; omega
    · rw [he]
  · by_cases h3 : n.nodeType = 3
    · have hc : calculateNodePosition content n = textPosition content n := by
        unfold calculateNodePosition; rw [if_neg h1, if_pos h3]
      rw [hc] at h ⊢
      rcases textPosition_fst_cases content n with ⟨s, hs⟩ | he
      · rw [hs] at h; omega
      · rw [he]
    · by_cases h2 : n.nodeType = 2
      · have hc : calculateNodePosition content n =
            attributePosition content n := by
          unfold calculateNodePosition; rw [if_neg h1, if_neg h3, if_pos h2]
        rw [hc] at h ⊢
        rcases attributePosition_fst_cases content n with ⟨s, hs⟩ | he
        · rw [hs] at h; omega
        · rw [he]
      · have hc : calculateNodePosition content n = (-1, -1) := by
          unfold calculateNodePosition; rw [if_neg h1, if_neg h3, if_neg h2]
        rw [hc]

/-- Soundness of a successful parent-anchored text search: the end is the
start plus the raw text's length, and the raw text sits at the start. -/
theorem anchoredTextSearch_sound (content : String) (n : DomNode) (s e : Nat)
    (ha : anchoredTextSearch content n = some (s, e)) :
    e = s + n.nodeValue.length ∧
    n.nodeValue.data.isPrefixOf (content.data.drop s) = true := by
  have hL : n.nodeValue.length = n.nodeValue.data.length := rfl
  unfold anchoredTextSearch at ha
  dsimp only at ha
  cases hpn : n.parentName with
  | none => rw [hpn] at ha; cases ha
  | some pn =>
    rw [hpn] at ha
    dsimp only at ha
    by_cases hpe : pn ≠ ""
    · rw [if_pos hpe] at ha
      cases hini : idxOf content.data ('<' :: lowerChars pn.data) with
      | none => rw [hini] at ha; cases ha
      | some parentPos =>
        rw [hini] at ha
        dsimp only at ha
        set ss := (match charIdxFrom content.data '>' parentPos with
          | some g => g + 1
          | none => 0) with hss
        cases hfind : idxOf (content.data.drop ss) n.nodeValue.data with
        | none => rw [hfind] at ha; cases ha
        | some tp =>
          rw [hfind] at ha
          simp only [Option.some.injEq, Prod.mk.injEq] at ha
          obtain ⟨hs, he⟩ := ha
          subst hs; subst he
          constructor
          · rw [hL]
          · have hp := (idxOfFrom_sound hfind).2
            rw [List.drop_drop] at hp
            exact hp
    · rw [if_neg hpe] at ha; cases ha

/-- The fallback generation always answers with the request's id. -/
theorem handleFallbackXPathGeneration_id (parse : String → DTree)
    (req : ClickRequest) (em : ElementMatch) :
    (handleFallbackXPathGeneration parse req em).id = req.id := by
  unfold handleFallbackXPathGeneration
  dsimp only
  repeat' split
  all_goals rfl

/-- Every `.ok` branch of the click handler's body carries the request id. -/
theorem handleClickToXPathCore_ok_id (parse : String → DTree) (uid : String)
    (req : ClickRequest) (r : ClickResult)
    (h : handleClickToXPathCore parse uid req = .ok r) : r.id = req.id := by
  unfold handleClickToXPathCore at h
  dsimp only at h
  repeat' split at h
  all_goals cases h
  all_goals first
    | rfl
    | exact handleFallbackXPathGeneration_id _ _ _

end Lemmas

/-- C4: for every text node whose content is empty after trimming, the Offset
Locator reports "not located" (the `(-1, -1)` sentinels, which the source
models as the null span) and, being a total function, never throws. -/
theorem c4_whitespace_text_not_located (content : String) (n : DomNode)
    (h3 : n.nodeType = 3) (hws : trimChars n.nodeValue.data = []) :
    calculateNodePosition content n = (-1, -1) := by
  have hc : calculateNodePosition content n = textPosition content n := by
    unfold calculateNodePosition
    rw [if_neg (by omega), if_pos h3]
  rw [hc]
  unfold textPosition
  simp [hws]

/-- Witness for C4 at a concrete whitespace-only text node. -/
theorem c4_whitespace_text_not_located_witness :
    calculateNodePosition "<p>  \n </p>" wsTextNode = (-1, -1) :=
  c4_whitespace_text_not_located "<p>  \n </p>" wsTextNode rfl (by decide)

/-- C5 counterexample: for the text node with raw value `" hi "` under a
`<p>` parent, the parent-anchored search succeeds at index 3 but the located
span has length 4 (the raw `nodeValue`), not `length(trimmedText) = 2` as the
claim states: the search key is the raw text, not the trimmed text. -/
theorem c5_counterexample :
    calculateNodePosition "<p> hi </p>" spacedTextNode = (3, 7) ∧
    (7 : Int) - 3 ≠ ((trimChars " hi ".data).length : Int) := by
  constructor
  · rfl
  · decide

/-- C5 (amended): when the parent-anchored search of the text-node branch
succeeds at `s`, the returned span is `[s, s + length(rawText))` — the raw
`nodeValue`, not the trimmed text, is the search key and the span length —
and the raw text is exactly the substring at `s`. -/
theorem c5_anchored_text_span_raw (content : String) (n : DomNode)
    (h3 : n.nodeType = 3) (hne : trimChars n.nodeValue.data ≠ [])
    (s e : Nat) (ha : anchoredTextSearch content n = some (s, e)) :
    calculateNodePosition content n = ((s : Int), (e : Int)) ∧
    e = s + n.nodeValue.length ∧
    substrJS content.data s e = n.nodeValue.data := by
  obtain ⟨hlen, hp⟩ := anchoredTextSearch_sound content n s e ha
  refine ⟨?_, hlen, ?_⟩
  · have hc : calculateNodePosition content n = textPosition content n := by
      unfold calculateNodePosition
      rw [if_neg (by omega), if_pos h3]
    rw [hc]
    unfold textPosition
    dsimp only
    rw [if_pos hne, ha]
  · have hsub := substrJS_at_found content.data n.nodeValue.data s hp
    rw [hlen]
    exact hsub

/-- Witness for C5 at the `" hi "` text node. -/
theorem c5_anchored_text_span_raw_witness :
    calculateNodePosition "<p> hi </p>" spacedTextNode = ((3 : Int), (7 : Int)) ∧
    7 = 3 + spacedTextNode.nodeValue.length ∧
    substrJS "<p> hi </p>".data 3 7 = spacedTextNode.nodeValue.data :=
  c5_anchored_text_span_raw "<p> hi </p>" spacedTextNode rfl (by decide) 3 7 rfl

/-- C3 counterexample: a match whose location could not be recovered (here a
comment node) carries `startOffset` and `endOffset` *present* with the `-1`
sentinels, not absent, so the claimed invariant (absent fields, or
`0 ≤ start < end ≤ length`) fails. -/
theorem c3_counterexample :
    ¬ offsetsWellFormedSpec "<p>x</p>" (buildMatch "<p>x</p>" commentNode) := by
  have hs : (buildMatch "<p>x</p>" commentNode).startOffset = some (-1) := rfl
  intro hc
  rcases hc with ⟨h1, _⟩ | ⟨s, e, h1, _, h0, _, _⟩
  · rw [hs] at h1; cases h1
  · rw [hs] at h1
    injection h1 with h1
    omega

/-- C3 (amended): every match row assembled by the worker's `evaluateXPath`
carries both offset fields; a row whose location could not be recovered
carries `startOffset = endOffset = -1` (sentinels rather than absent
fields). -/
theorem c3_offsets_present_sentinel (content : String) (nodes : List DomNode)
    (m : MatchResult) (hm : m ∈ (evaluateXPathWorker content nodes).matchList) :
    ∃ s e : Int, m.startOffset = some s ∧ m.endOffset = some e ∧
      (s = -1 → e = -1) := by
  have hmap : ∃ n ∈ nodes, buildMatch content n = m := by
    simpa [evaluateXPathWorker] using hm
  obtain ⟨n, _, hn⟩ := hmap
  refine ⟨(calculateNodePosition content n).1, (calculateNodePosition content n).2,
    ?_, ?_, ?_⟩
  · rw [← hn]; rfl
  · rw [← hn]; rfl
  · exact calculateNodePosition_snd_sentinel content n

/-- Witness for C3 on a single-comment-node evaluation. -/
theorem c3_offsets_present_sentinel_witness :
    ∃ s e : Int,
      (buildMatch "<p>x</p>" commentNode).startOffset = some s ∧
      (buildMatch "<p>x</p>" commentNode).endOffset = some e ∧
      (s = -1 → e = -1) :=
  c3_offsets_present_sentinel "<p>x</p>" [commentNode]
    (buildMatch "<p>x</p>" commentNode)
    (by
      have h : (evaluateXPathWorker "<p>x</p>" [commentNode]).matchList =
          [buildMatch "<p>x</p>" commentNode] := rfl
      rw [h]
      exact List.mem_singleton.mpr rfl)

/-- C1 (failing input): on `<p>a<br/>b</p>` with the unique `<p>` element —
well formed, not self-closing — the locator returns the span `(0, 3)`, the
bare opening tag, instead of ending just past the matching `</p>` at 14: the
self-closing test is an unanchored regex over a 100-character window and
matches the nested `<br/>`. -/
theorem c1_selfclosing_window_failure :
    calculateNodePosition "<p>a<br/>b</p>" brParagraphNode = (0, 3) ∧
    idxOf "<p>a<br/>b</p>".data ('<' :: '/' :: ('p' :: ['>'])) = some 10 := by
  constructor
  · rfl
  · rfl

/-- C2 counterexample: an element whose `id` is the non-empty `"x"` but which
also carries the temporary `data-xtracta-temp-id` marker — exactly the state
the worker itself puts the clicked element into — makes the worker's
`generateXPath` skip the id shortcut and emit the absolute path `/div`. -/
theorem c2_counterexample :
    getAttr tempMarkedDiv "id" = some "x" ∧
    generateXPathWorker tempMarkedDiv [] = "/div" ∧
    generateXPathWorker tempMarkedDiv [] ≠ "//*[@id=\"x\"]" := by
  refine ⟨rfl, rfl, by decide⟩

/-- C2 (amended): for every element with a non-empty `id`, at any depth and
with any siblings, the provider's `generateXPath` returns exactly
`//*[@id="<id>"]`, and the worker's does so provided the element does not
carry the temporary `data-xtracta-temp-id` marker. -/
theorem c2_id_shortcut (root : DTree) (p : List Nat) (e : DTree)
    (he : nodeAt root p = some e) (v : String)
    (hid : getAttr e "id" = some v) (hv : v ≠ "") :
    (getAttr e XTRACTA_ID_ATTR = none →
      generateXPathWorker root p = "//*[@id=\"" ++ v ++ "\"]") ∧
    generateXPathProvider root p = "//*[@id=\"" ++ v ++ "\"]" := by
  constructor
  · intro htemp
    unfold generateXPathWorker
    rw [he]
    try dsimp only
    rw [hid]
    try dsimp only
    rw [if_pos (by simp [hv, htemp])]
  · unfold generateXPathProvider
    rw [he]
    try dsimp only
    rw [hid]
    try dsimp only
    rw [if_pos (by simpa using hv)]
    rfl

/-- Witness for C2 on a concrete `<div id="x">`. -/
theorem c2_id_shortcut_witness :
    (getAttr plainIdDiv XTRACTA_ID_ATTR = none →
      generateXPathWorker plainIdDiv [] = "//*[@id=\"" ++ "x" ++ "\"]") ∧
    generateXPathProvider plainIdDiv [] = "//*[@id=\"" ++ "x" ++ "\"]" :=
  c2_id_shortcut plainIdDiv [] plainIdDiv rfl "x" rfl (by decide)

/-- C6 (failing input): for the document `<div\n>hello</div>` with a click at
column 2 inside the unmatched `<div` fragment, the multi-line reassembly
parses the assembled `<div >` opening tag and then discards it
(`return null`), so the click reports "No element found at the clicked
position" instead of resolving to the `<div>` element's XPath. -/
theorem c6_opening_tag_reassembly_returns_null :
    extractCompleteTagFromMultilineContext ["<div", ">hello</div>"] 1 2
      { ptype := "opening", tagName := some "div"
        hasOpeningBracket := true, hasClosingBracket := false } =
      Except.ok none ∧
    handleClickToXPath dummyParse "u1" c6Request =
      { id := 7, xpath := none
        error := some "No element found at the clicked position" } :=
  ⟨rfl, rfl⟩

/-- C10: for every parser adapter, marker id and request, the click handler
returns a result (totality models "never throws") whose `id` equals the
request's `id` in every branch, and any error thrown inside the body is
caught and surfaced as a tagged failure with a null xpath and an error
message. -/
theorem c10_click_result_id_preserved (parse : String → DTree) (uid : String)
    (req : ClickRequest) :
    (handleClickToXPath parse uid req).id = req.id ∧
    (∀ msg, handleClickToXPathCore parse uid req = .error msg →
      (handleClickToXPath parse uid req).xpath = none ∧
      (handleClickToXPath parse uid req).error ≠ none) := by
  constructor
  · unfold handleClickToXPath
    split
    · rename_i r hr
      exact handleClickToXPathCore_ok_id parse uid req r hr
    · rfl
  · intro msg hmsg
    unfold handleClickToXPath
    rw [hmsg]
    exact ⟨rfl, by simp⟩

/-- C7 counterexample: the worker renders an attribute node as its bare value
`"v"`, not the claimed `name="value"`-style `a="v"`; and the backend direct
path renders an element as its trimmed text content, not its outer markup. -/
theorem c7_counterexample :
    extractNodeValue attrNodeAV = "v" ∧ "v" ≠ "a=\"v\"" ∧
    backendMatchValue backendDivNode = "T" ∧
    "T" ≠ backendDivNode.outerHTML := by
  refine ⟨rfl, by decide, rfl, by decide⟩

/-- C7 (amended): the worker's `value` is the outer markup for elements and
the raw text for text nodes, but the *bare attribute value* for attribute
nodes; the backend direct path always yields the trimmed
`nodeValue || textContent` text instead. -/
theorem c7_value_serialization (n : DomNode) :
    (n.nodeType = 1 → extractNodeValue n = outerOrToString n) ∧
    (n.nodeType = 3 → extractNodeValue n = n.nodeValue) ∧
    (n.nodeType = 2 → extractNodeValue n = n.nodeValue) ∧
    backendMatchValue n =
      trimString (if n.nodeValue ≠ "" then n.nodeValue
                  else if n.textContent ≠ "" then n.textContent else "") := by
  refine ⟨?_, ?_, ?_, rfl⟩ <;> intro h <;> simp [extractNodeValue, h]

/-- C8: an evaluation failure (e.g. the syntactically invalid `//[bad`, on
which the external evaluator throws) surfaces as an error response with a
non-empty message in the worker and a 500 with a non-empty error in the
backend controller; it is never converted into a success with an empty match
list — a success response arises only from a successful evaluation outcome. -/
theorem c8_errors_surface_nonempty (content m : String) (nodes : List DomNode) :
    (∃ msg, workerOnEvaluate content (Except.error m) =
        WorkerResponse.error msg ∧ msg ≠ "") ∧
    (∀ ms cnt, workerOnEvaluate content (Except.error m) ≠
        WorkerResponse.result ms cnt) ∧
    (controllerEvaluate (Except.error m)).status = 500 ∧
    (∃ emsg, (controllerEvaluate (Except.error m)).errorField = some emsg ∧
        emsg ≠ "") ∧
    workerOnEvaluate content (Except.ok nodes) =
      WorkerResponse.result (evaluateXPathWorker content nodes).matchList
        (evaluateXPathWorker content nodes).count ∧
    (controllerEvaluate (Except.ok [])).status = 200 := by
  refine ⟨⟨if m = "" then "Unknown error evaluating XPath" else m, rfl, ?_⟩,
    ?_, rfl, ⟨"Error evaluating XPath expression", rfl, by decide⟩, rfl, rfl⟩
  · by_cases hm : m = "" <;> simp [hm]
  · intro ms cnt h
    exact WorkerResponse.noConfusion h

/-- C9: routing is a pure function of document size with a strict 5 MB
threshold on both sides: above it the frontend dispatches to the backend API
and the backend to a worker thread; at or below it the frontend evaluates
locally (WebWorker) and the backend in-process; a 6 MB document takes the
offloaded path and a 2 KB document does not. -/
theorem c9_size_threshold_routing :
    (∀ bytes : Nat, 5 * 1024 * 1024 < bytes →
        routeFrontend bytes = FrontendRoute.api) ∧
    (∀ bytes : Nat, bytes ≤ 5 * 1024 * 1024 →
        routeFrontend bytes = FrontendRoute.localWorker) ∧
    (∀ len : Nat, 5 * 1024 * 1024 < len →
        routeBackend len = BackendRoute.workerThread) ∧
    (∀ len : Nat, len ≤ 5 * 1024 * 1024 →
        routeBackend len = BackendRoute.direct) ∧
    routeFrontend (6 * 1024 * 1024) = FrontendRoute.api ∧
    routeFrontend (2 * 1024) = FrontendRoute.localWorker ∧
    routeBackend (6 * 1024 * 1024) = BackendRoute.workerThread ∧
    routeBackend (2 * 1024) = BackendRoute.direct := by
  have key : ∀ b : Nat, (((b : ℚ) / (1024 * 1024)) > 5) ↔ 5 * 1024 * 1024 < b := by
    intro b
    rw [gt_iff_lt, lt_div_iff₀ (by norm_num : (0 : ℚ) < 1024 * 1024)]
    rw [show ((5 : ℚ) * (1024 * 1024)) = ((5 * 1024 * 1024 : Nat) : ℚ) by
      norm_num]
    exact_mod_cast Iff.rfl
  have hf1 : ∀ bytes : Nat, 5 * 1024 * 1024 < bytes →
      routeFrontend bytes = FrontendRoute.api := by
    intro bytes h
    unfold routeFrontend
    rw [if_pos ((key bytes).mpr h)]
  have hf2 : ∀ bytes : Nat, bytes ≤ 5 * 1024 * 1024 →
      routeFrontend bytes = FrontendRoute.localWorker := by
    intro bytes h
    unfold routeFrontend
    rw [if_neg (fun hc => absurd ((key bytes).mp hc) (by omega))]
  have hb1 : ∀ len : Nat, 5 * 1024 * 1024 < len →
      routeBackend len = BackendRoute.workerThread := by
    intro len h
    unfold routeBackend
    rw [if_pos h]
  have hb2 : ∀ len : Nat, len ≤ 5 * 1024 * 1024 →
      routeBackend len = BackendRoute.direct := by
    intro len h
    unfold routeBackend
    rw [if_neg (by omega)]
  exact ⟨hf1, hf2, hb1, hb2, hf1 _ (by norm_num), hf2 _ (by norm_num),
    hb1 _ (by norm_num), hb2 _ (by norm_num)⟩

end Xtracta
